import Mathlib

/-!
Shallow embedding of the download lifecycle core of
src/src/model.py (class Model of the video-downloader repository):
the lifecycle state machine, its telemetry fields, the process-wide
download lock registry, and the callback contract the download engine
drives. Assertions in the Python code are modelled by Option-valued
operations: a result of none means a failed assert (a fatal protocol
violation), some means the operation completed.
-/

namespace VideoDownloader

/-- One instance of class Model: its lifecycle state, the previous state
recorded by the state-property binding, the user request parameters, the
telemetry fields and the lock claim held by this instance. The state is a
string, exactly as in the source (start, download, cancel, success,
error). -/
structure Model where
  state : String
  prev_state : Option String
  error : String
  url : String
  mode : String
  resolution : Nat
  download_folder : String
  prefer_mpeg : Bool
  automatic_subtitles : List String
  finished_download_dir : String
  finished_download_filenames : List String
  download_playlist_index : Int
  download_playlist_count : Int
  download_filename : String
  download_title : String
  download_thumbnail : String
  download_progress : Rat
  download_bytes : Int
  download_bytes_total : Int
  download_speed : Int
  download_eta : Int
  active_download_lock : Option String
deriving Repr, DecidableEq

/-- The process-wide set of active lock keys
(Model._global_download_lock, a module-level Python set shared by all
instances). Keys are inserted only when absent, so the list never holds
duplicates along real executions. -/
abbrev Registry := List String

/-- Modelled from the spec: expand_path comes from video_downloader.util,
which is not under src/. The spec describes finished_download_dir as an
absolute path resolved from download_folder at the Start to Downloading
transition, so the model prepends the path separator: the result is an
absolute, hence non-empty, path. -/
def expand_path (p : String) : String := "/" ++ p

/-- Model._state_transition: runs on every assignment to the state
property (user actions download/cancel/back and the terminal callback all
go through it). Returns none when one of its asserts on _prev_state
fails, otherwise the updated instance. Entering start resets the error,
all telemetry fields, the finished filenames and the finished dir;
entering download resolves finished_download_dir. The engine start and
cancel commands are fire-and-forget calls with no effect on this state. -/
def state_transition (m : Model) (s : String) : Option Model :=
  if s = "start" then
    if m.prev_state = some "download" then none
    else some { m with
      state := s,
      error := "",
      download_playlist_index := 0,
      download_playlist_count := 0,
      download_filename := "",
      download_title := "",
      download_thumbnail := "",
      download_progress := -1,
      download_bytes := -1,
      download_bytes_total := -1,
      download_speed := -1,
      download_eta := -1,
      finished_download_filenames := [],
      finished_download_dir := "",
      prev_state := some s }
  else if s = "download" then
    if m.prev_state = some "start" then
      some { m with
        state := s,
        finished_download_dir := expand_path m.download_folder,
        prev_state := some s }
    else none
  else if s = "cancel" then
    if m.prev_state = some "download" then
      some { m with state := s, prev_state := some s }
    else none
  else if s = "success" ∨ s = "error" then
    if m.prev_state = some "download" then
      some { m with state := s, prev_state := some s }
    else none
  else none

/-- The download action: sets the state property to download. -/
def request_download (m : Model) : Option Model := state_transition m "download"

/-- The cancel action: sets the state property to cancel. -/
def request_cancel (m : Model) : Option Model := state_transition m "cancel"

/-- The back action: sets the state property to start. -/
def request_back (m : Model) : Option Model := state_transition m "start"

/-- Model.shutdown: its body only delegates to the external engine
(self._downloader.shutdown()); it touches neither the registry nor any
field of the instance. -/
def shutdown (reg : Registry) (m : Model) : Registry × Model := (reg, m)

/-- Model._download_unlock. The Python guard is a truthiness test
(if self._active_download_lock:), so it fires only when the held key is
a non-empty string: a held key that is the empty string is neither
removed from the registry nor cleared from the instance. -/
def download_unlock (reg : Registry) (m : Model) : Registry × Model :=
  match m.active_download_lock with
  | some k =>
      if k = "" then (reg, m)
      else (reg.erase k, { m with active_download_lock := none })
  | none => (reg, m)

/-- Model.on_finished: asserts the state is download or cancel, unlocks,
then routes cancel to start and download to success or error according to
the success flag, through the state property (hence through
state_transition and its asserts). -/
def on_finished (reg : Registry) (m : Model) (success : Bool) :
    Option (Registry × Model) :=
  if m.state = "download" ∨ m.state = "cancel" then
    let p := download_unlock reg m
    if p.2.state = "cancel" then
      (state_transition p.2 "start").map (fun m2 => (p.1, m2))
    else
      (state_transition p.2 (if success then "success" else "error")).map
        (fun m2 => (p.1, m2))
  else none

/-- Model.on_error: asserts the state is download or cancel and stores
the message in the error field; the state itself is unchanged. -/
def on_error (m : Model) (msg : String) : Option Model :=
  if m.state = "download" ∨ m.state = "cancel" then
    some { m with error := msg }
  else none

/-- Model.on_progress: asserts the state is download or cancel and
updates the progress telemetry fields. -/
def on_progress (m : Model) (filename : String) (progress : Rat)
    (bytes bytes_total eta speed : Int) : Option Model :=
  if m.state = "download" ∨ m.state = "cancel" then
    some { m with
      download_filename := filename,
      download_progress := progress,
      download_bytes := bytes,
      download_bytes_total := bytes_total,
      download_eta := eta,
      download_speed := speed }
  else none

/-- Model.on_download_start: asserts the state is download or cancel and
records the playlist position and title. -/
def on_download_start (m : Model) (playlist_index playlist_count : Int)
    (title : String) : Option Model :=
  if m.state = "download" ∨ m.state = "cancel" then
    some { m with
      download_playlist_index := playlist_index,
      download_playlist_count := playlist_count,
      download_title := title }
  else none

/-- Model.on_download_lock: asserts the state is download or cancel and
that this instance holds no claim; then atomically tests membership of
the key in the global registry, returning false without mutation when the
key is already held, and otherwise inserting it, recording the claim and
returning true. -/
def on_download_lock (reg : Registry) (m : Model) (name : String) :
    Option (Bool × Registry × Model) :=
  if m.state = "download" ∨ m.state = "cancel" then
    match m.active_download_lock with
    | none =>
        if name ∈ reg then some (false, reg, m)
        else some (true, name :: reg,
          { m with active_download_lock := some name })
    | some _ => none
  else none

/-- Model.on_download_thumbnail: asserts the state is download or cancel
and records the thumbnail reference. -/
def on_download_thumbnail (m : Model) (thumbnail : String) : Option Model :=
  if m.state = "download" ∨ m.state = "cancel" then
    some { m with download_thumbnail := thumbnail }
  else none

/-- Model.on_download_finished: asserts the state is download or cancel,
unlocks, then appends the filename to the finished filenames. -/
def on_download_finished (reg : Registry) (m : Model) (filename : String) :
    Option (Registry × Model) :=
  if m.state = "download" ∨ m.state = "cancel" then
    let p := download_unlock reg m
    some (p.1, { p.2 with
      finished_download_filenames :=
        p.2.finished_download_filenames ++ [filename] })
  else none

/-- A Model record before the state-property binding has run: GObject
property defaults of the class, _prev_state = None, no lock claim. -/
def pristine : Model :=
  { state := "start"
    prev_state := none
    error := ""
    url := ""
    mode := "audio"
    resolution := 1080
    download_folder := ""
    prefer_mpeg := false
    automatic_subtitles := []
    finished_download_dir := ""
    finished_download_filenames := []
    download_playlist_index := 0
    download_playlist_count := 0
    download_filename := ""
    download_title := ""
    download_thumbnail := ""
    download_progress := -1
    download_bytes := -1
    download_bytes_total := -1
    download_speed := -1
    download_eta := -1
    active_download_lock := none }

/-- The instance right after construction: binding the state property in
__init__ runs _state_transition on the initial value start, which resets
every field and records _prev_state = start. -/
def Model.init : Model := { pristine with prev_state := some "start" }

/-! ### Helper lemmas -/

lemma expand_path_ne_empty (p : String) : expand_path p ≠ "" := by
  unfold expand_path
  intro h
  have h2 := congrArg String.length h
  rw [String.length_append] at h2
  have h3 : ("/" : String).length = 1 := rfl
  rw [h3] at h2
  simp at h2

/-- What a completed assignment to the state property guarantees,
independently of which branch the transition took. -/
lemma state_transition_spec {m m2 : Model} {s : String}
    (h : state_transition m s = some m2) :
    m2.state = s ∧ m2.prev_state = some s ∧
    (s = "start" ∨ s = "download" ∨ s = "cancel" ∨
      s = "success" ∨ s = "error") ∧
    (s = "start" → m.prev_state ≠ some "download" ∧
      m2.finished_download_dir = "") ∧
    (s = "download" → m.prev_state = some "start" ∧
      m2.finished_download_dir = expand_path m.download_folder) ∧
    ((s = "cancel" ∨ s = "success" ∨ s = "error") →
      m.prev_state = some "download" ∧
      m2.finished_download_dir = m.finished_download_dir) ∧
    m2.active_download_lock = m.active_download_lock := by
  unfold state_transition at h
  split at h
  · rename_i hs
    split at h
    · exact absurd h (by simp)
    · rename_i hprev
      cases h
      subst hs
      simp_all
  · split at h
    · rename_i hns hs
      split at h
      · rename_i hprev
        cases h
        subst hs
        simp_all
      · exact absurd h (by simp)
    · split at h
      · rename_i hns hnd hs
        split at h
        · rename_i hprev
          cases h
          subst hs
          simp_all
        · exact absurd h (by simp)
      · split at h
        · rename_i hns hnd hnc hs
          split at h
          · rename_i hprev
            cases h
            rcases hs with hs | hs <;> subst hs <;> simp_all
          · exact absurd h (by simp)
        · exact absurd h (by simp)

/-- The field resets performed on entering start. -/
lemma state_transition_start {m m2 : Model}
    (h : state_transition m "start" = some m2) :
    m2.error = "" ∧
    m2.download_playlist_index = 0 ∧
    m2.download_playlist_count = 0 ∧
    m2.download_filename = "" ∧
    m2.download_title = "" ∧
    m2.download_thumbnail = "" ∧
    m2.download_progress = -1 ∧
    m2.download_bytes = -1 ∧
    m2.download_bytes_total = -1 ∧
    m2.download_speed = -1 ∧
    m2.download_eta = -1 ∧
    m2.finished_download_filenames = [] ∧
    m2.finished_download_dir = "" := by
  unfold state_transition at h
  rw [if_pos rfl] at h
  by_cases hp : m.prev_state = some "download"
  · rw [if_pos hp] at h
    cases h
  · rw [if_neg hp] at h
    cases h
    simp

/-- Setting the state to start, written as an equation. -/
lemma state_transition_to_start {m : Model}
    (h : m.prev_state ≠ some "download") :
    state_transition m "start" = some { m with
      state := "start",
      error := "",
      download_playlist_index := 0,
      download_playlist_count := 0,
      download_filename := "",
      download_title := "",
      download_thumbnail := "",
      download_progress := -1,
      download_bytes := -1,
      download_bytes_total := -1,
      download_speed := -1,
      download_eta := -1,
      finished_download_filenames := [],
      finished_download_dir := "",
      prev_state := some "start" } := by
  unfold state_transition
  rw [if_pos rfl, if_neg h]

/-- Setting the state to download, written as an equation. -/
lemma state_transition_to_download {m : Model}
    (h : m.prev_state = some "start") :
    state_transition m "download" = some { m with
      state := "download",
      finished_download_dir := expand_path m.download_folder,
      prev_state := some "download" } := by
  unfold state_transition
  rw [if_neg (by decide), if_pos rfl, if_pos h]

/-- Setting the state to cancel, written as an equation. -/
lemma state_transition_to_cancel {m : Model}
    (h : m.prev_state = some "download") :
    state_transition m "cancel" = some { m with
      state := "cancel", prev_state := some "cancel" } := by
  unfold state_transition
  rw [if_neg (by decide), if_neg (by decide), if_pos rfl, if_pos h]

/-- Setting the state to success, written as an equation. -/
lemma state_transition_to_success {m : Model}
    (h : m.prev_state = some "download") :
    state_transition m "success" = some { m with
      state := "success", prev_state := some "success" } := by
  unfold state_transition
  rw [if_neg (by decide), if_neg (by decide), if_neg (by decide),
    if_pos (Or.inl rfl), if_pos h]

/-- Setting the state to error, written as an equation. -/
lemma state_transition_to_error {m : Model}
    (h : m.prev_state = some "download") :
    state_transition m "error" = some { m with
      state := "error", prev_state := some "error" } := by
  unfold state_transition
  rw [if_neg (by decide), if_neg (by decide), if_neg (by decide),
    if_pos (Or.inr rfl), if_pos h]

/-- Unlocking touches only the registry and the lock claim. -/
lemma download_unlock_state (reg : Registry) (m : Model) :
    (download_unlock reg m).2.state = m.state ∧
    (download_unlock reg m).2.prev_state = m.prev_state ∧
    (download_unlock reg m).2.error = m.error ∧
    (download_unlock reg m).2.finished_download_dir =
      m.finished_download_dir ∧
    (download_unlock reg m).2.finished_download_filenames =
      m.finished_download_filenames := by
  rcases h : m.active_download_lock with _ | k
  · simp [download_unlock, h]
  · by_cases hk : k = "" <;> simp [download_unlock, h, hk]

/-- Unlocking with no claim held is the identity. -/
lemma download_unlock_none {reg : Registry} {m : Model}
    (h : m.active_download_lock = none) :
    download_unlock reg m = (reg, m) := by
  unfold download_unlock
  rw [h]

/-- Unlocking with a held non-empty key erases it and clears the claim. -/
lemma download_unlock_some {reg : Registry} {m : Model} {k : String}
    (h : m.active_download_lock = some k) (hk : k ≠ "") :
    download_unlock reg m =
      (reg.erase k, { m with active_download_lock := none }) := by
  unfold download_unlock
  rw [h]
  simp [hk]

/-- Unlocking with the held key equal to the empty string does nothing:
the Python truthiness guard treats the empty string like no claim. -/
lemma download_unlock_empty {reg : Registry} {m : Model}
    (h : m.active_download_lock = some "") :
    download_unlock reg m = (reg, m) := by
  unfold download_unlock
  rw [h]
  simp

/-- on_finished with a legal state, reduced to its two routing branches. -/
lemma on_finished_eq (reg : Registry) (m : Model) (success : Bool)
    (hs : m.state = "download" ∨ m.state = "cancel") :
    on_finished reg m success =
      (if (download_unlock reg m).2.state = "cancel" then
        (state_transition (download_unlock reg m).2 "start").map
          (fun m2 => ((download_unlock reg m).1, m2))
      else
        (state_transition (download_unlock reg m).2
            (if success then "success" else "error")).map
          (fun m2 => ((download_unlock reg m).1, m2))) := by
  unfold on_finished
  rw [if_pos hs]

/-- on_download_lock when the key is already held somewhere: denied,
nothing mutated. -/
lemma on_download_lock_denied {reg : Registry} {m : Model} {name : String}
    (hs : m.state = "download" ∨ m.state = "cancel")
    (ha : m.active_download_lock = none) (hm : name ∈ reg) :
    on_download_lock reg m name = some (false, reg, m) := by
  unfold on_download_lock
  rw [if_pos hs, ha]
  simp [hm]

/-- on_download_lock when the key is free: granted, key inserted and
claim recorded. -/
lemma on_download_lock_granted {reg : Registry} {m : Model} {name : String}
    (hs : m.state = "download" ∨ m.state = "cancel")
    (ha : m.active_download_lock = none) (hm : name ∉ reg) :
    on_download_lock reg m name = some (true, name :: reg,
      { m with active_download_lock := some name }) := by
  unfold on_download_lock
  rw [if_pos hs, ha]
  simp [hm]

/-- on_download_lock while a claim is held: the second assert fails. -/
lemma on_download_lock_held {reg : Registry} {m : Model} {name k : String}
    (hs : m.state = "download" ∨ m.state = "cancel")
    (ha : m.active_download_lock = some k) :
    on_download_lock reg m name = none := by
  unfold on_download_lock
  rw [if_pos hs, ha]

/-! ### Claim C5 -/

/-- C5: for all sequences of legal transitions, immediately after the
machine enters Start every reset field reads its documented reset value:
error empty, playlist index and count 0, filename, title and thumbnail
empty, progress, bytes, bytes total, speed and eta all -1, the finished
filenames empty and the finished download dir empty. Every entry into
Start is an application of state_transition with target start. -/
theorem C5_telemetry_reset_on_start (m m2 : Model)
    (h : state_transition m "start" = some m2) :
    m2.error = "" ∧
    m2.download_playlist_index = 0 ∧
    m2.download_playlist_count = 0 ∧
    m2.download_filename = "" ∧
    m2.download_title = "" ∧
    m2.download_thumbnail = "" ∧
    m2.download_progress = -1 ∧
    m2.download_bytes = -1 ∧
    m2.download_bytes_total = -1 ∧
    m2.download_speed = -1 ∧
    m2.download_eta = -1 ∧
    m2.finished_download_filenames = [] ∧
    m2.finished_download_dir = "" :=
  state_transition_start h

/-- Witness for C5 at the initial instance. -/
theorem C5_telemetry_reset_on_start_witness :
    Model.init.error = "" ∧
    Model.init.download_playlist_index = 0 ∧
    Model.init.download_playlist_count = 0 ∧
    Model.init.download_filename = "" ∧
    Model.init.download_title = "" ∧
    Model.init.download_thumbnail = "" ∧
    Model.init.download_progress = -1 ∧
    Model.init.download_bytes = -1 ∧
    Model.init.download_bytes_total = -1 ∧
    Model.init.download_speed = -1 ∧
    Model.init.download_eta = -1 ∧
    Model.init.finished_download_filenames = [] ∧
    Model.init.finished_download_dir = "" :=
  C5_telemetry_reset_on_start pristine Model.init rfl

/-! ### Claim C9 -/

/-- C9: on_error called while the state is download or cancel stores the
message in the error field and leaves the state unchanged; the move to
the error state happens only later, through on_finished false. -/
theorem C9_on_error_sets_message (reg : Registry) (m : Model) (msg : String)
    (hs : m.state = "download" ∨ m.state = "cancel")
    (hp : m.prev_state = some m.state) :
    (∃ m2, on_error m msg = some m2 ∧ m2.error = msg ∧ m2.state = m.state) ∧
    (m.state = "download" →
      ∃ q, on_finished reg m false = some q ∧ q.2.state = "error") := by
  constructor
  · refine ⟨{ m with error := msg }, ?_, rfl, rfl⟩
    unfold on_error
    rw [if_pos hs]
  · intro hd
    have hq := download_unlock_state reg m
    have h2 : (download_unlock reg m).2.prev_state = some "download" := by
      rw [hq.2.1, hp, hd]
    have h1 : (download_unlock reg m).2.state = "download" := by
      rw [hq.1, hd]
    rw [on_finished_eq reg m false hs, if_neg (by rw [h1]; decide)]
    rw [show (if false = true then "success" else "error") = "error" from rfl]
    rw [state_transition_to_error h2]
    exact ⟨_, rfl, rfl⟩

/-- A concrete instance in state download with no lock claim. -/
def mDownloading : Model :=
  { pristine with
    state := "download",
    prev_state := some "download",
    url := "https://example.com/v",
    finished_download_dir := "/downloads" }

/-- Witness for C9 at a concrete downloading instance. -/
theorem C9_on_error_sets_message_witness :
    (∃ m2, on_error mDownloading "boom" = some m2 ∧ m2.error = "boom" ∧
      m2.state = mDownloading.state) ∧
    (mDownloading.state = "download" →
      ∃ q, on_finished [] mDownloading false = some q ∧
        q.2.state = "error") :=
  C9_on_error_sets_message [] mDownloading "boom" (Or.inl rfl) rfl

/-- A second concrete instance in state download with no lock claim. -/
def mDownloading2 : Model :=
  { pristine with
    state := "download",
    prev_state := some "download",
    url := "https://example.com/w",
    finished_download_dir := "/other" }

/-- A concrete instance in state cancel with no lock claim. -/
def mCancelling : Model :=
  { mDownloading with state := "cancel", prev_state := some "cancel" }

/-- A concrete instance in state success. -/
def mSuccess : Model :=
  { mDownloading with state := "success", prev_state := some "success" }

/-- A concrete downloading instance holding the lock key k. -/
def mHolding : Model :=
  { mDownloading with active_download_lock := some "k" }

/-- Inversion of a successful on_download_lock call. -/
lemma on_download_lock_true_inv {reg reg2 : Registry} {m m2 : Model}
    {name : String}
    (h : on_download_lock reg m name = some (true, reg2, m2)) :
    reg2 = name :: reg ∧ m2 = { m with active_download_lock := some name } ∧
    name ∉ reg ∧ m.active_download_lock = none := by
  unfold on_download_lock at h
  split at h
  · rcases ha : m.active_download_lock with _ | k
    · rw [ha] at h
      by_cases hm : name ∈ reg
      · rw [if_pos hm] at h
        simp at h
      · rw [if_neg hm] at h
        simp only [Option.some.injEq, Prod.mk.injEq, true_and] at h
        exact ⟨h.1.symm, h.2.symm, hm, ha ▸ rfl⟩
    · rw [ha] at h
      cases h
  · cases h

/-! ### Claim C2 -/

/-- C2, amended to non-empty keys: for every non-empty key k not yet in
the registry, the first on_download_lock call returns true and inserts
the key; while it is held every further call from any claim-free
instance in a legal state returns false and mutates nothing; after the
holder releases, a call from the other instance returns true. With the
empty-string key the release step of the holder is a no-op, so the
claim as frozen fails there (see the counterexample). -/
theorem C2_mutual_exclusion (reg : Registry) (a b : Model) (k : String)
    (hk : k ≠ "") (hreg : k ∉ reg)
    (hsa : a.state = "download" ∨ a.state = "cancel")
    (haa : a.active_download_lock = none)
    (hsb : b.state = "download" ∨ b.state = "cancel")
    (hab : b.active_download_lock = none) :
    on_download_lock reg a k =
      some (true, k :: reg, { a with active_download_lock := some k }) ∧
    (∀ c : Model, (c.state = "download" ∨ c.state = "cancel") →
      c.active_download_lock = none →
      on_download_lock (k :: reg) c k = some (false, k :: reg, c)) ∧
    download_unlock (k :: reg) { a with active_download_lock := some k } =
      (reg, { a with active_download_lock := none }) ∧
    on_download_lock reg b k =
      some (true, k :: reg, { b with active_download_lock := some k }) := by
  refine ⟨on_download_lock_granted hsa haa hreg, ?_, ?_,
    on_download_lock_granted hsb hab hreg⟩
  · intro c hsc hac
    exact on_download_lock_denied hsc hac (List.mem_cons_self k reg)
  · rw [download_unlock_some rfl hk, List.erase_cons_head]

/-- Witness for C2 at two concrete downloading instances and key key. -/
theorem C2_mutual_exclusion_witness :
    on_download_lock [] mDownloading "key" = some (true, ["key"],
      { mDownloading with active_download_lock := some "key" }) ∧
    on_download_lock ["key"] mCancelling "key" =
      some (false, ["key"], mCancelling) ∧
    download_unlock ["key"]
        { mDownloading with active_download_lock := some "key" } =
      ([], { mDownloading with active_download_lock := none }) ∧
    on_download_lock [] mDownloading2 "key" = some (true, ["key"],
      { mDownloading2 with active_download_lock := some "key" }) := by
  have h := C2_mutual_exclusion [] mDownloading mDownloading2 "key"
    (by decide) (by simp) (Or.inl rfl) rfl (Or.inl rfl) rfl
  exact ⟨h.1, h.2.1 mCancelling (Or.inr rfl) rfl, h.2.2.1, h.2.2.2⟩

/-- C2 counterexample: with the empty-string key the holder acquires,
runs the release step (which the truthiness guard turns into a no-op),
and a subsequent try from another instance still returns false, against
the frozen claim that it returns true after the release. -/
theorem C2_mutual_exclusion_counterexample :
    on_download_lock [] mDownloading "" = some (true, [""],
      { mDownloading with active_download_lock := some "" }) ∧
    download_unlock [""]
        { mDownloading with active_download_lock := some "" } =
      ([""], { mDownloading with active_download_lock := some "" }) ∧
    on_download_lock [""] mDownloading2 "" =
      some (false, [""], mDownloading2) := by
  refine ⟨rfl, ?_, rfl⟩
  exact download_unlock_empty rfl

/-! ### Claim C6 -/

/-- C6, amended: on_download_lock is valid only while the state is
download or cancel (otherwise its first assert fails), and a repeated
call made while the instance still holds a claim fails the second
assert. A repeated call after a denial, or after on_download_finished
has released the claim, is however permitted (see the counterexample),
so at most one call per attempt is not enforced in general. -/
theorem C6_lock_call_asserts (reg : Registry) (m : Model) (name : String) :
    (¬ (m.state = "download" ∨ m.state = "cancel") →
      on_download_lock reg m name = none) ∧
    (∀ k, m.active_download_lock = some k →
      (m.state = "download" ∨ m.state = "cancel") →
      on_download_lock reg m name = none) := by
  constructor
  · intro hs
    unfold on_download_lock
    rw [if_neg hs]
  · intro k hk hs
    exact on_download_lock_held hs hk

/-- Witness for C6: a call in state success fails, and a repeated call
while holding key k fails. -/
theorem C6_lock_call_asserts_witness :
    on_download_lock [] mSuccess "n" = none ∧
    on_download_lock ["k"] mHolding "n" = none := by
  have h1 := C6_lock_call_asserts [] mSuccess "n"
  have h2 := C6_lock_call_asserts ["k"] mHolding "n"
  exact ⟨h1.1 (by decide), h2.2 "k" rfl (Or.inl rfl)⟩

/-- C6 counterexample: one instance calls on_download_lock twice within
the same download attempt without any fatal assert: the first call
acquires k, on_download_finished releases the claim, and the repeated
call acquires k again and succeeds. -/
theorem C6_lock_call_asserts_counterexample :
    on_download_lock [] mDownloading "k" = some (true, ["k"], mHolding) ∧
    on_download_finished ["k"] mHolding "f" =
      some ([], { mDownloading with finished_download_filenames := ["f"] }) ∧
    on_download_lock []
        { mDownloading with finished_download_filenames := ["f"] } "k" =
      some (true, ["k"], { mDownloading with
        finished_download_filenames := ["f"],
        active_download_lock := some "k" }) := by
  refine ⟨rfl, ?_, rfl⟩
  show some _ = _
  rfl

/-! ### Claim C7 -/

/-- C7: release is aliasing-safe. For an instance a holding key k, after
its release step a second release by a leaves the registry unchanged; in
particular when another instance b acquired the same key k in between,
the repeated release does not remove the lock of b, which stays in the
registry. -/
theorem C7_release_aliasing_safe (reg : Registry) (a b : Model) (k : String)
    (ha : a.active_download_lock = some k) :
    ∀ reg2 b2,
      on_download_lock (download_unlock reg a).1 b k =
        some (true, reg2, b2) →
      download_unlock reg2 (download_unlock reg a).2 =
        (reg2, (download_unlock reg a).2) ∧ k ∈ reg2 := by
  intro reg2 b2 hb
  by_cases hk : k = ""
  · subst hk
    have hu : download_unlock reg a = (reg, a) := download_unlock_empty ha
    rw [hu] at hb
    obtain ⟨hr2, _, _, _⟩ := on_download_lock_true_inv hb
    rw [hu]
    refine ⟨download_unlock_empty ha, ?_⟩
    rw [hr2]
    exact List.mem_cons_self _ _
  · have hu : download_unlock reg a =
        (reg.erase k, { a with active_download_lock := none }) :=
      download_unlock_some ha hk
    rw [hu] at hb
    obtain ⟨hr2, _, _, _⟩ := on_download_lock_true_inv hb
    rw [hu]
    refine ⟨download_unlock_none rfl, ?_⟩
    rw [hr2]
    exact List.mem_cons_self _ _

/-- Witness for C7: instance mHolding holds k, releases it, a second
instance acquires k, and the repeated release keeps k registered. -/
theorem C7_release_aliasing_safe_witness :
    download_unlock ["k"] (download_unlock ["k"] mHolding).2 =
      (["k"], (download_unlock ["k"] mHolding).2) ∧
    "k" ∈ (["k"] : Registry) :=
  C7_release_aliasing_safe ["k"] mHolding mDownloading2 "k" rfl ["k"]
    { mDownloading2 with active_download_lock := some "k" } rfl

/-- A claim-free instance in a legal state can always call
on_download_lock without a fatal assert. -/
lemma on_download_lock_isSome {reg : Registry} {m : Model} {name : String}
    (hs : m.state = "download" ∨ m.state = "cancel")
    (ha : m.active_download_lock = none) :
    (on_download_lock reg m name).isSome = true := by
  by_cases hm : name ∈ reg
  · rw [on_download_lock_denied hs ha hm]
    rfl
  · rw [on_download_lock_granted hs ha hm]
    rfl

/-- Unlocking clears the claim whenever the held key, if any, is not the
empty string. -/
lemma download_unlock_clears {reg : Registry} {m : Model}
    (hk : m.active_download_lock ≠ some "") :
    (download_unlock reg m).2.active_download_lock = none := by
  rcases ha : m.active_download_lock with _ | k
  · rw [download_unlock_none ha]
    exact ha
  · have hke : k ≠ "" := by
      intro e
      exact hk (e ▸ ha)
    rw [download_unlock_some ha hke]

/-- Full description of on_finished from a legal state when the held
key, if any, is not the empty string. -/
lemma on_finished_spec (reg : Registry) (m : Model) (success : Bool)
    (hs : m.state = "download" ∨ m.state = "cancel")
    (hp : m.prev_state = some m.state)
    (hk : m.active_download_lock ≠ some "") :
    ∃ m2, on_finished reg m success =
        some ((download_unlock reg m).1, m2) ∧
      m2.active_download_lock = none ∧
      (∀ k, m.active_download_lock = some k →
        (download_unlock reg m).1 = reg.erase k) ∧
      (m.active_download_lock = none → (download_unlock reg m).1 = reg) ∧
      m2.state = (if m.state = "cancel" then "start"
        else if success then "success" else "error") := by
  have hact : (download_unlock reg m).2.active_download_lock = none :=
    download_unlock_clears hk
  have hst := download_unlock_state reg m
  have hfst1 : ∀ k, m.active_download_lock = some k →
      (download_unlock reg m).1 = reg.erase k := by
    intro k hk2
    have hke : k ≠ "" := by
      intro e
      exact hk (e ▸ hk2)
    rw [download_unlock_some hk2 hke]
  have hfst2 : m.active_download_lock = none →
      (download_unlock reg m).1 = reg := by
    intro h0
    rw [download_unlock_none h0]
  rcases hs with hd | hc
  · have h1 : (download_unlock reg m).2.state = "download" := by
      rw [hst.1, hd]
    have h2 : (download_unlock reg m).2.prev_state = some "download" := by
      rw [hst.2.1, hp, hd]
    rw [on_finished_eq reg m success (Or.inl hd), if_neg (by rw [h1]; decide)]
    cases success
    · rw [show (if false = true then "success" else "error") = "error"
        from rfl]
      rw [state_transition_to_error h2]
      refine ⟨_, rfl, hact, hfst1, hfst2, ?_⟩
      rw [hd]
      rfl
    · rw [show (if true = true then "success" else "error") = "success"
        from rfl]
      rw [state_transition_to_success h2]
      refine ⟨_, rfl, hact, hfst1, hfst2, ?_⟩
      rw [hd]
      rfl
  · have h1 : (download_unlock reg m).2.state = "cancel" := by
      rw [hst.1, hc]
    have h2 : (download_unlock reg m).2.prev_state ≠ some "download" := by
      rw [hst.2.1, hp, hc]
      decide
    rw [on_finished_eq reg m success (Or.inr hc), if_pos h1,
      state_transition_to_start h2]
    refine ⟨_, rfl, hact, hfst1, hfst2, ?_⟩
    rw [hc]
    rfl

/-! ### Claim C3 -/

/-- C3, amended to non-empty keys: whenever on_finished is called with
the machine in download or cancel (the recorded previous state agreeing,
as it always does between transitions) and the held key, if any, is not
the empty string, it first runs the release step (clearing the claim and
erasing a held key from the registry), then transitions to start if the
state was cancel regardless of the success flag, to success if the state
was download and the flag is true, and to error if the state was
download and the flag is false. With a held empty-string key the release
step is a no-op, so the frozen claim fails there (see the
counterexample). -/
theorem C3_on_finished_routing (reg : Registry) (m : Model) (success : Bool)
    (hs : m.state = "download" ∨ m.state = "cancel")
    (hp : m.prev_state = some m.state)
    (hk : m.active_download_lock ≠ some "") :
    ∃ m2, on_finished reg m success =
        some ((download_unlock reg m).1, m2) ∧
      m2.active_download_lock = none ∧
      (∀ k, m.active_download_lock = some k →
        (download_unlock reg m).1 = reg.erase k) ∧
      (m.active_download_lock = none → (download_unlock reg m).1 = reg) ∧
      m2.state = (if m.state = "cancel" then "start"
        else if success then "success" else "error") :=
  on_finished_spec reg m success hs hp hk

/-- A cancelling instance holding the empty-string key. -/
def mCancelHoldsEmpty : Model :=
  { mCancelling with active_download_lock := some "" }

/-- The instance produced by on_finished on mCancelHoldsEmpty: reset to
start but still claiming the empty-string key. -/
def mAfterCancelEmpty : Model :=
  { pristine with
    prev_state := some "start",
    url := "https://example.com/v",
    active_download_lock := some "" }

/-- C3 counterexample: in state cancel holding the empty-string key,
on_finished completes and routes to start, but the release step has not
released anything: the claim is still present and the key is still in
the registry. -/
theorem C3_on_finished_routing_counterexample :
    mCancelHoldsEmpty.active_download_lock = some "" ∧
    on_finished [""] mCancelHoldsEmpty true =
      some ([""], mAfterCancelEmpty) ∧
    mAfterCancelEmpty.active_download_lock = some "" ∧
    "" ∈ ([""] : Registry) := by
  refine ⟨rfl, ?_, rfl, by simp⟩
  rfl

/-- Witness for C3 at a downloading instance holding key k. -/
theorem C3_on_finished_routing_witness :
    ∃ m2, on_finished ["k"] mHolding true =
        some ((download_unlock ["k"] mHolding).1, m2) ∧
      m2.active_download_lock = none ∧
      (∀ k, mHolding.active_download_lock = some k →
        (download_unlock ["k"] mHolding).1 = (["k"] : Registry).erase k) ∧
      (mHolding.active_download_lock = none →
        (download_unlock ["k"] mHolding).1 = (["k"] : Registry)) ∧
      m2.state = (if mHolding.state = "cancel" then "start"
        else if true then "success" else "error") :=
  C3_on_finished_routing ["k"] mHolding true (Or.inl rfl) rfl (by decide)

/-! ### Claim C1 -/

/-- C1, amended: for a download attempt in which the instance holds a
successfully acquired non-empty key k (the registry, as along real
executions, holding no duplicate keys), the terminal callback
on_finished releases k exactly once whatever the flag: afterwards k is
no longer registered, the claim is cleared, and the release step run
again is a no-op. Model.shutdown, however, performs no release at all:
it only delegates to the engine and leaves both the registry and the
instance untouched, so the guaranteed cleanup lives in on_finished (and
in on_download_finished), not in shutdown as the frozen claim states. -/
theorem C1_release_exactly_once (reg : Registry) (m : Model)
    (success : Bool) (k : String)
    (hs : m.state = "download" ∨ m.state = "cancel")
    (hp : m.prev_state = some m.state)
    (ha : m.active_download_lock = some k)
    (hk : k ≠ "") (hnd : reg.Nodup) :
    ∃ m2, on_finished reg m success = some (reg.erase k, m2) ∧
      k ∉ reg.erase k ∧
      m2.active_download_lock = none ∧
      download_unlock (reg.erase k) m2 = (reg.erase k, m2) ∧
      shutdown reg m = (reg, m) := by
  have hke : m.active_download_lock ≠ some "" := by
    rw [ha]
    simp [hk]
  obtain ⟨m2, hof, hact, hfst1, _, _⟩ := on_finished_spec reg m success hs hp hke
  rw [hfst1 k ha] at hof
  refine ⟨m2, hof, ?_, hact, download_unlock_none hact, rfl⟩
  intro hmem
  exact (hnd.mem_erase_iff.1 hmem).1 rfl

/-- Witness for C1: the holder of key k finishes with success and the
key is released exactly once. -/
theorem C1_release_exactly_once_witness :
    ∃ m2, on_finished ["k"] mHolding true =
        some ((["k"] : Registry).erase "k", m2) ∧
      "k" ∉ (["k"] : Registry).erase "k" ∧
      m2.active_download_lock = none ∧
      download_unlock ((["k"] : Registry).erase "k") m2 =
        ((["k"] : Registry).erase "k", m2) ∧
      shutdown ["k"] mHolding = (["k"], mHolding) :=
  C1_release_exactly_once ["k"] mHolding true "k" (Or.inl rfl) rfl rfl
    (by decide) (by simp)

/-- C1 counterexample: shutdown is no release path: with key k held and
registered, shutdown leaves the registry and the claim untouched; and
with the empty-string key held, even on_finished releases nothing. -/
theorem C1_release_exactly_once_counterexample :
    shutdown ["k"] mHolding = (["k"], mHolding) ∧
    mHolding.active_download_lock = some "k" ∧
    "k" ∈ (["k"] : Registry) ∧
    on_finished [""] mCancelHoldsEmpty false =
      some ([""], mAfterCancelEmpty) ∧
    mAfterCancelEmpty.active_download_lock = some "" := by
  refine ⟨rfl, rfl, by simp, ?_, rfl⟩
  rfl

/-! ### Claim C10 -/

/-- C10, amended to non-empty keys: when the held key, if any, is not
the empty string (and the registry holds no duplicates), every call to
on_download_finished runs the release step (erasing a held key from the
registry and clearing the claim) and appends the filename to the
finished filenames; afterwards the instance holds no claim and any
subsequent on_download_lock call passes its asserts. With a held
empty-string key the release step is a no-op and the claim survives, so
the subsequent lock call fails its assert (see the counterexample). -/
theorem C10_download_finished_releases (reg : Registry) (m : Model)
    (f : String)
    (hs : m.state = "download" ∨ m.state = "cancel")
    (hk : m.active_download_lock ≠ some "")
    (hnd : reg.Nodup) :
    ∃ m2, on_download_finished reg m f =
        some ((download_unlock reg m).1, m2) ∧
      m2.active_download_lock = none ∧
      (∀ k, m.active_download_lock = some k →
        (download_unlock reg m).1 = reg.erase k ∧
        k ∉ (download_unlock reg m).1) ∧
      m2.finished_download_filenames =
        m.finished_download_filenames ++ [f] ∧
      ∀ (reg3 : Registry) (name : String),
        (on_download_lock reg3 m2 name).isSome = true := by
  have hact : (download_unlock reg m).2.active_download_lock = none :=
    download_unlock_clears hk
  have hst := download_unlock_state reg m
  unfold on_download_finished
  rw [if_pos hs]
  refine ⟨_, rfl, hact, ?_, ?_, ?_⟩
  · intro k hk2
    have hke : k ≠ "" := by
      intro e
      exact hk (e ▸ hk2)
    rw [download_unlock_some hk2 hke]
    refine ⟨rfl, ?_⟩
    intro hmem
    exact (hnd.mem_erase_iff.1 hmem).1 rfl
  · rw [hst.2.2.2.2]
  · intro reg3 name
    have hs2 : ((download_unlock reg m).2.state = "download" ∨
        (download_unlock reg m).2.state = "cancel") := by
      rw [hst.1]
      exact hs
    exact on_download_lock_isSome hs2 hact

/-- Witness for C10: the holder of key k reports a finished file; the
key is released, the filename recorded, and a new lock call passes. -/
theorem C10_download_finished_releases_witness :
    ∃ m2, on_download_finished ["k"] mHolding "f" =
        some ((download_unlock ["k"] mHolding).1, m2) ∧
      m2.active_download_lock = none ∧
      (∀ k, mHolding.active_download_lock = some k →
        (download_unlock ["k"] mHolding).1 = (["k"] : Registry).erase k ∧
        k ∉ (download_unlock ["k"] mHolding).1) ∧
      m2.finished_download_filenames =
        mHolding.finished_download_filenames ++ ["f"] ∧
      ∀ (reg3 : Registry) (name : String),
        (on_download_lock reg3 m2 name).isSome = true :=
  C10_download_finished_releases ["k"] mHolding "f" (Or.inl rfl)
    (by decide) (by simp)

/-- A downloading instance holding the empty-string key. -/
def mDownloadHoldsEmpty : Model :=
  { mDownloading with active_download_lock := some "" }

/-- C10 counterexample: holding the empty-string key,
on_download_finished appends the filename but releases nothing: the
claim survives and a subsequent on_download_lock call fails its assert
instead of passing. -/
theorem C10_download_finished_releases_counterexample :
    on_download_finished [""] mDownloadHoldsEmpty "f" =
      some ([""], { mDownloadHoldsEmpty with
        finished_download_filenames := ["f"] }) ∧
    ({ mDownloadHoldsEmpty with
        finished_download_filenames := ["f"] } : Model).active_download_lock
      = some "" ∧
    on_download_lock [""]
      { mDownloadHoldsEmpty with finished_download_filenames := ["f"] }
      "x" = none := by
  refine ⟨?_, rfl, ?_⟩
  · rfl
  · rfl

/-! ### Claim C4 -/

/-- The transition table of section 4.1 of the spec, written from the
words of the spec (not from the code): Start to Downloading on a
download request, Downloading to Cancelling on a cancel request,
Downloading to Success or Error on the terminal callback, Cancelling to
Start on the terminal callback, and Success or Error to Start on a back
request. Used to compare the transitions the code accepts against the
table. -/
def spec_legal (a b : String) : Prop :=
  (a = "start" ∧ b = "download") ∨
  (a = "download" ∧ b = "cancel") ∨
  (a = "download" ∧ (b = "success" ∨ b = "error")) ∨
  (a = "cancel" ∧ b = "start") ∨
  ((a = "success" ∨ a = "error") ∧ b = "start")

/-- C4, amended: a transition whose target is not start and which is not
in the table of the spec fails its assert and performs nothing; in
particular a download request while the state is download fails, and so
does entering start directly from download. The code however accepts
entering start from every state except download, so the
table-illegal pairs start to start (a back request in Start) and, as a
user action, cancel to start are not rejected (see the
counterexample). -/
theorem C4_illegal_transitions_assert (m : Model) (s : String)
    (hp : m.prev_state = some m.state) :
    (¬ spec_legal m.state s → s ≠ "start" → state_transition m s = none) ∧
    (m.state = "download" →
      request_download m = none ∧ request_back m = none) ∧
    (m.state ≠ "download" → (state_transition m "start").isSome = true) := by
  refine ⟨?_, ?_, ?_⟩
  · intro hnl hns
    unfold state_transition
    rw [if_neg hns]
    by_cases h2 : s = "download"
    · subst h2
      have hprev : m.prev_state ≠ some "start" := by
        intro e
        rw [hp] at e
        exact hnl (Or.inl ⟨Option.some.inj e, rfl⟩)
      rw [if_pos rfl, if_neg hprev]
    · by_cases h3 : s = "cancel"
      · subst h3
        have hprev : m.prev_state ≠ some "download" := by
          intro e
          rw [hp] at e
          exact hnl (Or.inr (Or.inl ⟨Option.some.inj e, rfl⟩))
        rw [if_neg h2, if_pos rfl, if_neg hprev]
      · by_cases h4 : s = "success" ∨ s = "error"
        · have hprev : m.prev_state ≠ some "download" := by
            intro e
            rw [hp] at e
            exact hnl (Or.inr (Or.inr (Or.inl ⟨Option.some.inj e, h4⟩)))
          rw [if_neg h2, if_neg h3, if_pos h4, if_neg hprev]
        · rw [if_neg h2, if_neg h3, if_neg h4]
  · intro hd
    constructor
    · have hprev : m.prev_state ≠ some "start" := by
        rw [hp, hd]
        decide
      unfold request_download state_transition
      rw [if_neg (by decide), if_pos rfl, if_neg hprev]
    · have hprev : m.prev_state = some "download" := by
        rw [hp, hd]
      unfold request_back state_transition
      rw [if_pos rfl, if_pos hprev]
  · intro hnd
    have hprev : m.prev_state ≠ some "download" := by
      rw [hp]
      intro e
      exact hnd (Option.some.inj e)
    rw [state_transition_to_start hprev]
    rfl

/-- C4 counterexample: the pair start to start is not in the table of
the spec, yet the code performs it without any assert: a back request
while already in Start succeeds (and re-runs the resets). -/
theorem C4_illegal_transitions_assert_counterexample :
    ¬ spec_legal Model.init.state "start" ∧
    state_transition Model.init "start" = some Model.init := by
  constructor
  · unfold spec_legal
    decide
  · rfl

/-- Witness for C4 at a downloading instance and the garbage target
zzz. -/
theorem C4_illegal_transitions_assert_witness :
    state_transition mDownloading "zzz" = none ∧
    request_download mDownloading = none ∧
    request_back mDownloading = none := by
  have h := C4_illegal_transitions_assert mDownloading "zzz" rfl
  exact ⟨h.1 (by unfold spec_legal; decide) (by decide),
    (h.2.1 rfl).1, (h.2.1 rfl).2⟩

/-! ### Claim C8: reachability -/

/-- One step of the system: a user action or parameter edit, or one
engine callback, applied to the shared registry and one instance.
Parameter edits model assignments to the plain request properties (url,
mode, download folder, resolution, container preference, subtitle
languages), which have no binding and can be set at any time. -/
def set_request_params (m : Model) (u mo fo : String) (r : Nat) (pm : Bool)
    (subs : List String) : Model :=
  { m with
    url := u, mode := mo, download_folder := fo, resolution := r,
    prefer_mpeg := pm, automatic_subtitles := subs }

inductive Step : Registry × Model → Registry × Model → Prop where
  | set_state (reg : Registry) (m m2 : Model) (s : String)
      (h : state_transition m s = some m2) : Step (reg, m) (reg, m2)
  | set_params (reg : Registry) (m : Model) (u mo fo : String) (r : Nat)
      (pm : Bool) (subs : List String) :
      Step (reg, m) (reg, set_request_params m u mo fo r pm subs)
  | finished (reg reg2 : Registry) (m m2 : Model) (success : Bool)
      (h : on_finished reg m success = some (reg2, m2)) :
      Step (reg, m) (reg2, m2)
  | err (reg : Registry) (m m2 : Model) (msg : String)
      (h : on_error m msg = some m2) : Step (reg, m) (reg, m2)
  | progress (reg : Registry) (m m2 : Model) (filename : String) (p : Rat)
      (b bt eta speed : Int)
      (h : on_progress m filename p b bt eta speed = some m2) :
      Step (reg, m) (reg, m2)
  | dl_start (reg : Registry) (m m2 : Model) (i c : Int) (t : String)
      (h : on_download_start m i c t = some m2) : Step (reg, m) (reg, m2)
  | lock (reg reg2 : Registry) (m m2 : Model) (name : String) (b : Bool)
      (h : on_download_lock reg m name = some (b, reg2, m2)) :
      Step (reg, m) (reg2, m2)
  | thumb (reg : Registry) (m m2 : Model) (t : String)
      (h : on_download_thumbnail m t = some m2) : Step (reg, m) (reg, m2)
  | dl_finished (reg reg2 : Registry) (m m2 : Model) (f : String)
      (h : on_download_finished reg m f = some (reg2, m2)) :
      Step (reg, m) (reg2, m2)

/-- A registry and instance pair reachable from a freshly constructed
instance, under any initial registry contents (other instances may
already hold keys). -/
def Reachable (w : Registry × Model) : Prop :=
  ∃ reg0 : Registry, Relation.ReflTransGen Step (reg0, Model.init) w

/-- The state invariant: the recorded previous state agrees with the
state, the state is one of the five lifecycle values, and the finished
download dir is non-empty exactly outside start. -/
def Inv (m : Model) : Prop :=
  m.prev_state = some m.state ∧
  (m.state = "start" ∨ m.state = "download" ∨ m.state = "cancel" ∨
    m.state = "success" ∨ m.state = "error") ∧
  (m.finished_download_dir ≠ "" ↔ m.state ≠ "start")

lemma inv_init : Inv Model.init := by
  unfold Inv
  decide

lemma inv_transition {m m2 : Model} {s : String} (hi : Inv m)
    (h : state_transition m s = some m2) : Inv m2 := by
  obtain ⟨hp, _, hdir⟩ := hi
  obtain ⟨hstate, hprev, hs5, hstart, hdl, hkeep, _⟩ := state_transition_spec h
  refine ⟨by rw [hstate, hprev], by rw [hstate]; exact hs5, ?_⟩
  rw [hstate]
  rcases hs5 with h1 | h1 | h1 | h1 | h1
  · subst h1
    rw [(hstart rfl).2]
    simp
  · subst h1
    rw [(hdl rfl).2]
    exact iff_of_true (expand_path_ne_empty _) (by decide)
  · subst h1
    have hd : m.state = "download" := by
      have := (hkeep (Or.inl rfl)).1
      rw [hp] at this
      exact Option.some.inj this
    rw [(hkeep (Or.inl rfl)).2]
    refine iff_of_true (hdir.2 ?_) (by decide)
    rw [hd]
    decide
  · subst h1
    have hd : m.state = "download" := by
      have := (hkeep (Or.inr (Or.inl rfl))).1
      rw [hp] at this
      exact Option.some.inj this
    rw [(hkeep (Or.inr (Or.inl rfl))).2]
    refine iff_of_true (hdir.2 ?_) (by decide)
    rw [hd]
    decide
  · subst h1
    have hd : m.state = "download" := by
      have := (hkeep (Or.inr (Or.inr rfl))).1
      rw [hp] at this
      exact Option.some.inj this
    rw [(hkeep (Or.inr (Or.inr rfl))).2]
    refine iff_of_true (hdir.2 ?_) (by decide)
    rw [hd]
    decide

lemma inv_unlock {reg : Registry} {m : Model} (hi : Inv m) :
    Inv (download_unlock reg m).2 := by
  obtain ⟨h1, h2, h3⟩ := hi
  have hst := download_unlock_state reg m
  refine ⟨?_, ?_, ?_⟩
  · rw [hst.2.1, hst.1]
    exact h1
  · rw [hst.1]
    exact h2
  · rw [hst.2.2.2.1, hst.1]
    exact h3

/-- on_download_lock either leaves the instance unchanged or only
records a claim. -/
lemma on_download_lock_model_inv {reg reg2 : Registry} {m m2 : Model}
    {name : String} {b : Bool}
    (h : on_download_lock reg m name = some (b, reg2, m2)) :
    m2 = m ∨ m2 = { m with active_download_lock := some name } := by
  unfold on_download_lock at h
  split at h
  · rcases ha : m.active_download_lock with _ | k
    · rw [ha] at h
      by_cases hm : name ∈ reg
      · rw [if_pos hm] at h
        simp only [Option.some.injEq, Prod.mk.injEq] at h
        exact Or.inl h.2.2.symm
      · rw [if_neg hm] at h
        simp only [Option.some.injEq, Prod.mk.injEq] at h
        exact Or.inr h.2.2.symm
    · rw [ha] at h
      cases h
  · cases h

lemma inv_step {w w2 : Registry × Model} (hi : Inv w.2) (h : Step w w2) :
    Inv w2.2 := by
  cases h with
  | set_state reg m m2 s h => exact inv_transition hi h
  | set_params reg m u mo fo r pm subs => exact hi
  | finished reg reg2 m m2 success h =>
      by_cases hs : m.state = "download" ∨ m.state = "cancel"
      · rw [on_finished_eq reg m success hs] at h
        split at h <;>
        · rw [Option.map_eq_some'] at h
          obtain ⟨mm, hmm, hfa⟩ := h
          have hm2 : mm = m2 := congrArg Prod.snd hfa
          rw [hm2] at hmm
          exact inv_transition (inv_unlock hi) hmm
      · unfold on_finished at h
        rw [if_neg hs] at h
        cases h
  | err reg m m2 msg h =>
      unfold on_error at h
      split at h
      · cases h
        exact hi
      · cases h
  | progress reg m m2 filename p b bt eta speed h =>
      unfold on_progress at h
      split at h
      · cases h
        exact hi
      · cases h
  | dl_start reg m m2 i c t h =>
      unfold on_download_start at h
      split at h
      · cases h
        exact hi
      · cases h
  | lock reg reg2 m m2 name b h =>
      rcases on_download_lock_model_inv h with h2 | h2 <;> rw [h2] <;>
        exact hi
  | thumb reg m m2 t h =>
      unfold on_download_thumbnail at h
      split at h
      · cases h
        exact hi
      · cases h
  | dl_finished reg reg2 m m2 f h =>
      unfold on_download_finished at h
      split at h
      · injection h with h2
        have hm2 := congrArg Prod.snd h2
        rw [← hm2]
        exact inv_unlock hi
      · cases h

lemma reachable_inv {w : Registry × Model} (h : Reachable w) : Inv w.2 := by
  obtain ⟨reg0, hr⟩ := h
  induction hr with
  | refl => exact inv_init
  | tail _ hbc ih => exact inv_step ih hbc

/-- C8: in every reachable state of the machine the finished download
dir is non-empty exactly when the state is download, cancel, success or
error, and empty exactly in start. -/
theorem C8_dir_iff_active (reg : Registry) (m : Model)
    (h : Reachable (reg, m)) :
    m.finished_download_dir ≠ "" ↔
      (m.state = "download" ∨ m.state = "cancel" ∨
       m.state = "success" ∨ m.state = "error") := by
  obtain ⟨_, h5, hdir⟩ := reachable_inv h
  rw [hdir]
  constructor
  · intro hne
    rcases h5 with h1 | h1 | h1 | h1 | h1
    · exact absurd h1 hne
    · exact Or.inl h1
    · exact Or.inr (Or.inl h1)
    · exact Or.inr (Or.inr (Or.inl h1))
    · exact Or.inr (Or.inr (Or.inr h1))
  · intro h1 e
    rcases h1 with h1 | h1 | h1 | h1 <;> rw [e] at h1 <;>
      exact absurd h1 (by decide)

/-- Witness for C8 at the freshly constructed instance. -/
theorem C8_dir_iff_active_witness :
    Model.init.finished_download_dir ≠ "" ↔
      (Model.init.state = "download" ∨ Model.init.state = "cancel" ∨
       Model.init.state = "success" ∨ Model.init.state = "error") :=
  C8_dir_iff_active [] Model.init ⟨[], Relation.ReflTransGen.refl⟩

end VideoDownloader
